import Mathlib

/-!
# FMlib OPL adapter (`audio/fmlibopl.cpp`, `audio/fmlibopl.h`)

A shallow embedding of the `OPL::FMlibOPL::OPL` adapter: its constructor,
destructor, `init`, `reset`, `write`, `writeReg` and `onTimer`.

* C `int` arguments are mathematical integers; every bit operation is done on
  the 32-bit two's-complement pattern (`toU32`).
* Calls that leave the adapter (vendor library, platform allocator, the
  captured function pointers, the base timer class) are recorded as `Event`s
  in the order in which the code makes them.  The entry of `OPL::writeReg` is
  recorded too, so that the number and the arguments of `writeReg` calls can
  be stated.
* What the external collaborators answer is a parameter (`Env`).
* A function pointer is `Option Nat`; `none` is `nullptr`.  A call through
  `nullptr` stops the execution: the outcome has `fault = true` and keeps the
  events issued before that call.
* The embedding is of the release build: `FMLIB_ENABLE_LOGS` is defined only
  without `RELEASE_BUILD`, so the `atari_debug` calls and their message tables
  are not compiled.  `FMLIB_ENABLE_CUSTOM_ALLOC` is `1`.
* `fmInit` receives the interface and the parameters by pointer; the interface
  as `fmInit` leaves it is part of its answer.
-/

namespace FMlibOPL

/-! ## Types declared outside the two source files -/

/-- Modelled from the spec: the chip type `Config::OplType` of `audio/fmopl.h`
(OPL2 / OPL3 / dual-OPL2); the source uses the three members below. -/
inductive OplType where
  | kOpl2
  | kDualOpl2
  | kOpl3
  deriving DecidableEq, Repr

/-- Modelled from the spec: the vendor driver identifier `eFmDriverType`
(`fm/fm_defs.h`), with the members the constructor assigns. -/
inductive eFmDriverType where
  | FMD_UNDEFINED
  | FMD_OPLCART
  | FMD_OPL3EXPRESS
  | FMD_OPL2LPT
  | FMD_OPL3LPT
  | FMD_CE_OPL2AUDIO_LPT_SPI
  | FMD_CE_OPL3DUO_LPT_SPI
  deriving DecidableEq, Repr

/-- Modelled from the spec: the vendor chip generation descriptor
(`CM_UNDEFINED`, `CM_OPL2`, `CM_OPL3`). -/
inductive eSoundChip where
  | CM_UNDEFINED
  | CM_OPL2
  | CM_OPL3
  deriving DecidableEq, Repr

/-- Modelled from the spec: the vendor operation mode
(`CO_UNDEFINED`, `CO_OPL2`, `CO_OPL3`). -/
inductive eOperationMode where
  | CO_UNDEFINED
  | CO_OPL2
  | CO_OPL3
  deriving DecidableEq, Repr

/-- Modelled from the spec: the vendor setup mode.  The source names
`CC_UNDEFINED` and `CC_SINGLE`; `CC_OTHER n` stands for any further member the
vendor library may answer with. -/
inductive eChipSetup where
  | CC_UNDEFINED
  | CC_SINGLE
  | CC_OTHER (n : Nat)
  deriving DecidableEq, Repr

/-- Modelled from the spec: the transport port types the constructor selects. -/
inductive eOutputPort where
  | OPT_ST_CART
  | OPT_USB
  | OPT_LPT
  | OPT_LPT_SPI
  deriving DecidableEq, Repr

/-- A C function pointer; `none` is `nullptr`. -/
abbrev FnPtr := Option Nat

/-- Modelled from the spec: `sOplInterfaceConfiguration`, the four fields the
constructor assigns. -/
structure sOplInterfaceConfiguration where
  deviceType : eFmDriverType
  soundchip : eSoundChip
  operationMode : eOperationMode
  setup : eChipSetup
  deriving DecidableEq, Repr

/-- Modelled from the spec: `sInterfaceInitData`, the members the constructor
assigns (`none`: left unassigned). -/
structure sInterfaceInitData where
  outputPort : Option eOutputPort
  isOpl2AudioBoard : Option Bool
  deriving DecidableEq, Repr

/-- Modelled from the spec: `sOplInterface`, the members `init` reads. -/
structure sOplInterface where
  setup : eChipSetup
  write : FnPtr
  enqueWrite : FnPtr
  flush : FnPtr
  reset : FnPtr
  deriving DecidableEq, Repr

/-- Modelled from the spec: `sOplRegisterWrite`, built in `writeReg` as
`{bank, (uint8_t)reg, (uint8_t)value}`. -/
structure sOplRegisterWrite where
  bank : Nat
  reg : Nat
  value : Nat
  deriving DecidableEq, Repr

/-- The five allocator callbacks defined in `fmlibopl.cpp`. -/
inductive MemFn where
  | fmlibAlloc
  | fmlibAlignedAlloc
  | fmlibRealloc
  | fmlibFree
  | fmlibOutOfMemoryCb
  deriving DecidableEq, Repr

/-- Modelled from the spec: `sMemoryCallbacks`, the five members `init`
assigns. -/
structure sMemoryCallbacks where
  alloc : Option MemFn
  alignedAlloc : Option MemFn
  release : Option MemFn
  realloc : Option MemFn
  outOfMemory : Option MemFn
  deriving DecidableEq, Repr

/-! ## `fmlibopl.h` -/

/-- The enumeration `OplDevice : int16_t`; a value of the type is any integer
of the underlying type, the seven named devices are `0 .. 6`. -/
abbrev OplDevice := Int

def dtNokturnFM2 : OplDevice := 0
def dtNokturnFM3 : OplDevice := 1
def dtRWOpl3Express : OplDevice := 2
def dtOPL2LPT : OplDevice := 3
def dtOPL3LPT : OplDevice := 4
def dtOPL2AudioBoard : OplDevice := 5
def dtOPL3Duo : OplDevice := 6
def dtNumDevices : OplDevice := 7

/-- The data members of `class OPL`. -/
structure OPL where
  _type : OplType
  _deviceType : OplDevice
  _iface : Option sOplInterface
  _oplWrite : FnPtr
  _oplEnqueWrite : FnPtr
  _oplFlush : FnPtr
  _oplReset : FnPtr
  _params : sInterfaceInitData
  _ifaceCfg : sOplInterfaceConfiguration
  _activeReg : Int
  _initialized : Bool
  _useBuffer : Bool
  _incapableDevice : Bool
  deriving DecidableEq, Repr

/-- The adapter together with the module-level statics of `fmlibopl.cpp`
(`0` is the null pointer). -/
structure Machine where
  opl : OPL
  s_mFMlibSpace : Nat
  s_MemCallbacks : sMemoryCallbacks
  s_fmLibMemoryBase : Nat
  deriving DecidableEq, Repr

/-! ## Calls that leave the adapter -/

/-- One observable call, in program order. -/
inductive Event where
  | Supexec_updateHardwareInfo
  | warning_unrecognizedDevice
  | setDefaultUserMemoryCallbacks
  | Mxalloc (amount : Int) (mode : Int)
  | create_mspace_with_base (base : Nat) (capacity : Nat) (locked : Nat)
  | setUserMemoryCallbacks (cb : sMemoryCallbacks)
  | fmCreateInterface (cfg : sOplInterfaceConfiguration)
  | fmInit (iface : sOplInterface) (params : sInterfaceInitData)
  | initDualOpl2OnOpl3 (type : OplType)
  | writeReg (reg : Int) (value : Int)
  | emulateDualOpl2OnOpl3 (reg : Nat) (value : Nat) (type : OplType)
  | oplWrite (fp : Nat) (regWrite : sOplRegisterWrite)
  | oplEnqueWrite (fp : Nat) (regWrite : sOplRegisterWrite)
  | oplFlush (fp : Nat)
  | fmDeinit
  | fmDestroyInterface
  | destroy_mspace (msp : Nat)
  | Mfree (base : Nat)
  | RealChip_onTimer
  deriving DecidableEq, Repr

/-- What the external collaborators answer. -/
structure Env where
  /-- Address returned by the platform allocator (`0`: allocation failed). -/
  Mxalloc : Int → Int → Nat
  /-- Pool handle returned by dlmalloc (`0`: creation failed). -/
  create_mspace_with_base : Nat → Nat → Nat → Nat
  /-- Interface built by the vendor library. -/
  fmCreateInterface : sOplInterfaceConfiguration → sOplInterface
  /-- Return value of `fmInit` and the interface as `fmInit` leaves it. -/
  fmInit : sOplInterface → sInterfaceInitData → Int × sOplInterface
  /-- The dual-OPL2 gating predicate of `oplShadowRegs.h`. -/
  emulateDualOpl2OnOpl3 : Nat → Nat → OplType → Bool

/-- What a member function leaves behind. -/
structure Outcome where
  m : Machine
  events : List Event
  fault : Bool
  deriving DecidableEq, Repr

/-! ## `fmlibopl.cpp` -/

def FMLIB_ENABLE_BUFFERED_OUTPUT : Bool := false

def FMLIB_MSPACE_SIZE : Nat := 1 * 1024

/-- Bit pattern of a 32-bit `int`. -/
def toU32 (x : Int) : Nat := (x % 4294967296).toNat

/-- Constructor `OPL::OPL(type, deviceType)`: the members it leaves and the
calls it makes. -/
def OPL_new (type : OplType) (deviceType : OplDevice) : OPL × List Event :=
  -- the operation mode: CO_UNDEFINED of the "defaults" block, then set from
  -- the chip type
  let operationMode0 : eOperationMode := eOperationMode.CO_UNDEFINED
  let operationMode1 : eOperationMode :=
    if type = OplType.kOpl2 then eOperationMode.CO_OPL2 else operationMode0
  let operationMode2 : eOperationMode :=
    if type = OplType.kOpl3 ∨ type = OplType.kDualOpl2 then eOperationMode.CO_OPL3
    else operationMode1
  -- the members before the switch; the default setup CC_UNDEFINED has been
  -- overwritten by the unconditional assignment of CC_SINGLE
  let o3 : OPL :=
    { _type := type
      _deviceType := deviceType
      _iface := none
      _oplWrite := none
      _oplEnqueWrite := none
      _oplFlush := none
      _oplReset := none
      _params := { outputPort := none, isOpl2AudioBoard := none }
      _ifaceCfg :=
        { deviceType := eFmDriverType.FMD_UNDEFINED
          soundchip := eSoundChip.CM_UNDEFINED
          operationMode := operationMode2
          setup := eChipSetup.CC_SINGLE }
      _activeReg := 0
      _initialized := false
      _useBuffer := FMLIB_ENABLE_BUFFERED_OUTPUT
      _incapableDevice := false }
  let incapable : Bool := decide (type = OplType.kOpl3 ∨ type = OplType.kDualOpl2)
  if deviceType = dtNokturnFM2 then
    ({ o3 with
        _params := { o3._params with outputPort := some eOutputPort.OPT_ST_CART }
        _ifaceCfg := { o3._ifaceCfg with
          deviceType := eFmDriverType.FMD_OPLCART
          soundchip := eSoundChip.CM_OPL2
          setup := eChipSetup.CC_SINGLE }
        _incapableDevice := if incapable then true else o3._incapableDevice },
     [Event.Supexec_updateHardwareInfo])
  else if deviceType = dtNokturnFM3 then
    ({ o3 with
        _params := { o3._params with outputPort := some eOutputPort.OPT_ST_CART }
        _ifaceCfg := { o3._ifaceCfg with
          deviceType := eFmDriverType.FMD_OPLCART
          soundchip := eSoundChip.CM_OPL3
          setup := eChipSetup.CC_SINGLE } },
     [Event.Supexec_updateHardwareInfo])
  else if deviceType = dtRWOpl3Express then
    ({ o3 with
        _useBuffer := true
        _params := { o3._params with outputPort := some eOutputPort.OPT_USB }
        _ifaceCfg := { o3._ifaceCfg with
          deviceType := eFmDriverType.FMD_OPL3EXPRESS
          soundchip := eSoundChip.CM_OPL3
          setup := eChipSetup.CC_SINGLE } },
     [Event.Supexec_updateHardwareInfo])
  else if deviceType = dtOPL2LPT then
    ({ o3 with
        _params := { o3._params with outputPort := some eOutputPort.OPT_LPT }
        _ifaceCfg := { o3._ifaceCfg with
          deviceType := eFmDriverType.FMD_OPL2LPT
          soundchip := eSoundChip.CM_OPL2
          setup := eChipSetup.CC_SINGLE }
        _incapableDevice := if incapable then true else o3._incapableDevice },
     [Event.Supexec_updateHardwareInfo])
  else if deviceType = dtOPL3LPT then
    ({ o3 with
        _params := { o3._params with outputPort := some eOutputPort.OPT_LPT }
        _ifaceCfg := { o3._ifaceCfg with
          deviceType := eFmDriverType.FMD_OPL3LPT
          soundchip := eSoundChip.CM_OPL3
          setup := eChipSetup.CC_SINGLE } },
     [Event.Supexec_updateHardwareInfo])
  else if deviceType = dtOPL2AudioBoard then
    ({ o3 with
        _params := { outputPort := some eOutputPort.OPT_LPT_SPI, isOpl2AudioBoard := some true }
        _ifaceCfg := { o3._ifaceCfg with
          deviceType := eFmDriverType.FMD_CE_OPL2AUDIO_LPT_SPI
          soundchip := eSoundChip.CM_OPL2
          setup := eChipSetup.CC_SINGLE }
        _incapableDevice := if incapable then true else o3._incapableDevice },
     [Event.Supexec_updateHardwareInfo])
  else if deviceType = dtOPL3Duo then
    ({ o3 with
        _params := { outputPort := some eOutputPort.OPT_LPT_SPI, isOpl2AudioBoard := some false }
        _ifaceCfg := { o3._ifaceCfg with
          deviceType := eFmDriverType.FMD_CE_OPL3DUO_LPT_SPI
          soundchip := eSoundChip.CM_OPL3
          setup := eChipSetup.CC_SINGLE } },
     [Event.Supexec_updateHardwareInfo])
  else
    (o3, [Event.Supexec_updateHardwareInfo, Event.warning_unrecognizedDevice])

/-- The member function `OPL::writeReg(reg, value)`. -/
def writeReg (env : Env) (m : Machine) (reg value : Int) : Outcome :=
  let reg1 : Nat :=
    if m.opl._type = OplType.kOpl3 ∨ m.opl._type = OplType.kDualOpl2 then
      toU32 reg &&& 0x1ff
    else
      toU32 reg &&& 0xff
  let value1 : Nat := toU32 value &&& 0xff
  if env.emulateDualOpl2OnOpl3 reg1 value1 m.opl._type then
    let regWrite : sOplRegisterWrite :=
      if reg1 < 0x100 then
        { bank := 0, reg := reg1 % 256, value := value1 % 256 }
      else
        { bank := 1, reg := reg1 % 256, value := value1 % 256 }
    match m.opl._oplEnqueWrite with
    | some fp =>
      { m := m
        events := [Event.writeReg reg value,
                   Event.emulateDualOpl2OnOpl3 reg1 value1 m.opl._type,
                   Event.oplEnqueWrite fp regWrite]
        fault := false }
    | none =>
      { m := m
        events := [Event.writeReg reg value,
                   Event.emulateDualOpl2OnOpl3 reg1 value1 m.opl._type]
        fault := true }
  else
    { m := m
      events := [Event.writeReg reg value,
                 Event.emulateDualOpl2OnOpl3 reg1 value1 m.opl._type]
      fault := false }

/-- The member function `OPL::write(portAddress, value)`. -/
def write (env : Env) (m : Machine) (portAddress value : Int) : Outcome :=
  if toU32 portAddress &&& 1 ≠ 0 then
    writeReg env m m.opl._activeReg value
  else if m.opl._type = OplType.kOpl2 then
    { m := { m with opl := { m.opl with _activeReg := Int.ofNat (toU32 value &&& 0xff) } }
      events := []
      fault := false }
  else
    { m := { m with opl := { m.opl with
              _activeReg :=
                Int.ofNat ((toU32 value &&& 0xff) |||
                  (((toU32 portAddress <<< 7) % 4294967296) &&& 0x100)) } }
      events := []
      fault := false }

/-- A loop `for (i = 0; i < n; i++) writeReg(i + offset, 0)` of `reset`, run
over the list of its counter values; it stops at a fault. -/
def resetLoop (env : Env) (offset : Int) : List Nat → Machine → Outcome
  | [], m => { m := m, events := [], fault := false }
  | i :: rest, m =>
    let o1 := writeReg env m (Int.ofNat i + offset) 0
    if o1.fault then o1
    else
      let o2 := resetLoop env offset rest o1.m
      { m := o2.m, events := o1.events ++ o2.events, fault := o2.fault }

/-- The member function `OPL::reset()`. -/
def reset (env : Env) (m : Machine) : Outcome :=
  let o1 := resetLoop env 0 (List.range 256) m
  if o1.fault then o1
  else
    let o2 : Outcome :=
      if o1.m.opl._type = OplType.kOpl3 ∨ o1.m.opl._type = OplType.kDualOpl2 then
        let o := resetLoop env 256 (List.range 256) o1.m
        { m := o.m, events := o1.events ++ o.events, fault := o.fault }
      else o1
    if o2.fault then o2
    else
      { m := { o2.m with opl := { o2.m.opl with _activeReg := 0 } }
        events := o2.events ++ [Event.initDualOpl2OnOpl3 o2.m.opl._type]
        fault := false }

/-- The member function `OPL::init()`: its return value and its outcome. -/
def init (env : Env) (m : Machine) : Bool × Outcome :=
  if m.opl._incapableDevice then
    (false, { m := m, events := [], fault := false })
  else
    let base : Nat := env.Mxalloc (Int.ofNat FMLIB_MSPACE_SIZE + 256) 3
    let m1 : Machine := { m with s_fmLibMemoryBase := base }
    let ev1 : List Event :=
      [Event.setDefaultUserMemoryCallbacks,
       Event.Mxalloc (Int.ofNat FMLIB_MSPACE_SIZE + 256) 3]
    if base ≠ 0 then
      let msp : Nat := env.create_mspace_with_base base FMLIB_MSPACE_SIZE 0
      let m2 : Machine := { m1 with s_mFMlibSpace := msp }
      let ev2 : List Event := ev1 ++ [Event.create_mspace_with_base base FMLIB_MSPACE_SIZE 0]
      if msp = 0 then
        (false, { m := m2, events := ev2, fault := false })
      else
        let cb : sMemoryCallbacks :=
          { alloc := some MemFn.fmlibAlloc
            alignedAlloc := some MemFn.fmlibAlignedAlloc
            release := some MemFn.fmlibFree
            realloc := some MemFn.fmlibRealloc
            outOfMemory := some MemFn.fmlibOutOfMemoryCb }
        let m3 : Machine := { m2 with s_MemCallbacks := cb }
        let iface : sOplInterface := env.fmCreateInterface m3.opl._ifaceCfg
        let m4 : Machine := { m3 with opl := { m3.opl with _iface := some iface } }
        let ev4 : List Event :=
          ev2 ++ [Event.setUserMemoryCallbacks cb, Event.fmCreateInterface m3.opl._ifaceCfg]
        if iface.setup ≠ eChipSetup.CC_UNDEFINED then
          let r := env.fmInit iface m4.opl._params
          let m5 : Machine := { m4 with opl := { m4.opl with _iface := some r.2 } }
          let ev5 : List Event := ev4 ++ [Event.fmInit iface m4.opl._params]
          if r.1 ≥ 0 then
            (true,
             { m := { m5 with opl := { m5.opl with
                        _oplWrite := r.2.write
                        _oplEnqueWrite := r.2.enqueWrite
                        _oplFlush := r.2.flush
                        _oplReset := r.2.reset
                        _initialized := true } }
               events := ev5 ++ [Event.initDualOpl2OnOpl3 m5.opl._type]
               fault := false })
          else
            (false, { m := m5, events := ev5, fault := false })
        else
          (false, { m := m4, events := ev4, fault := false })
    else
      (false, { m := m1, events := ev1, fault := false })

/-- The member function `OPL::onTimer()`. -/
def onTimer (m : Machine) : Outcome :=
  if m.opl._initialized then
    match m.opl._oplFlush with
    | some fp => { m := m, events := [Event.oplFlush fp, Event.RealChip_onTimer], fault := false }
    | none => { m := m, events := [], fault := true }
  else
    { m := m, events := [Event.RealChip_onTimer], fault := false }

/-- The part of the destructor after the flush: release of the vendor
interface and of the memory pool. -/
def teardown (m : Machine) : Outcome :=
  let o : OPL :=
    { m.opl with
      _oplWrite := none
      _oplEnqueWrite := none
      _oplFlush := none
      _oplReset := none
      _incapableDevice := false
      _useBuffer := false
      _initialized := false }
  if m.s_mFMlibSpace ≠ 0 then
    { m := { m with opl := o, s_fmLibMemoryBase := 0 }
      events := [Event.fmDeinit, Event.fmDestroyInterface,
                 Event.destroy_mspace m.s_mFMlibSpace, Event.Mfree m.s_fmLibMemoryBase]
      fault := false }
  else
    { m := { m with opl := o }
      events := [Event.fmDeinit, Event.fmDestroyInterface]
      fault := false }

/-- Destructor `OPL::~OPL()`. -/
def OPL_delete (m : Machine) : Outcome :=
  if m.opl._initialized = true then
    if m.opl._useBuffer then
      match m.opl._oplFlush with
      | some fp =>
        let o := teardown m
        { m := o.m, events := Event.oplFlush fp :: o.events, fault := false }
      | none => { m := m, events := [], fault := true }
    else
      teardown m
  else
    { m := m, events := [], fault := false }

/-! ## Sequences of calls -/

/-- One call of the host on the adapter. -/
inductive Call where
  | init
  | reset
  | write (portAddress : Int) (value : Int)
  | writeReg (reg : Int) (value : Int)
  | onTimer
  deriving DecidableEq, Repr

/-- One call; the boolean is the return value of `init` (`false` for the
`void` members). -/
def step (env : Env) (m : Machine) : Call → Bool × Outcome
  | Call.init => init env m
  | Call.reset => (false, reset env m)
  | Call.write portAddress value => (false, write env m portAddress value)
  | Call.writeReg reg value => (false, writeReg env m reg value)
  | Call.onTimer => (false, onTimer m)

/-- State of a run: the machine, every event so far, whether the run stopped at
a call through `nullptr`, and whether some `init` has returned `true`. -/
structure Run where
  m : Machine
  events : List Event
  fault : Bool
  initOk : Bool
  deriving DecidableEq, Repr

/-- Runs the calls in order, each against its own answers of the
collaborators; nothing is executed after a fault. -/
def run : List (Env × Call) → Run → Run
  | [], r => r
  | (env, c) :: rest, r =>
    if r.fault then r
    else
      let s := step env r.m c
      run rest
        { m := s.2.m
          events := r.events ++ s.2.events
          fault := s.2.fault
          initOk := r.initOk || s.1 }

/-- The machine right after `OPL::OPL(type, deviceType)`, for any contents of
the module-level statics. -/
def fresh (type : OplType) (deviceType : OplDevice)
    (msp : Nat) (cb : sMemoryCallbacks) (base : Nat) : Machine :=
  { opl := (OPL_new type deviceType).1
    s_mFMlibSpace := msp
    s_MemCallbacks := cb
    s_fmLibMemoryBase := base }

/-- The run that has just constructed the adapter. -/
def start (type : OplType) (deviceType : OplDevice)
    (msp : Nat) (cb : sMemoryCallbacks) (base : Nat) : Run :=
  { m := fresh type deviceType msp cb base
    events := (OPL_new type deviceType).2
    fault := false
    initOk := false }

/-! ## Observations on event lists -/

/-- The `(reg, value)` arguments of the `writeReg` calls, in order. -/
def writeRegCalls : List Event → List (Int × Int)
  | [] => []
  | Event.writeReg reg value :: rest => (reg, value) :: writeRegCalls rest
  | _ :: rest => writeRegCalls rest

/-- The calls through the two vendor write entry points (`_oplWrite`,
`_oplEnqueWrite`), in order. -/
def vendorWrites : List Event → List Event
  | [] => []
  | Event.oplWrite fp regWrite :: rest => Event.oplWrite fp regWrite :: vendorWrites rest
  | Event.oplEnqueWrite fp regWrite :: rest =>
    Event.oplEnqueWrite fp regWrite :: vendorWrites rest
  | _ :: rest => vendorWrites rest

/-- Whether the event is a register write: a `writeReg` call or a call through
a vendor write entry point. -/
def isRegisterWrite : Event → Bool
  | Event.writeReg _ _ => true
  | Event.oplWrite _ _ => true
  | Event.oplEnqueWrite _ _ => true
  | _ => false

/-- Whether the event is a call through the vendor flush entry point. -/
def isFlush : Event → Bool
  | Event.oplFlush _ => true
  | _ => false

/-- No member of the memory-callback table is set. -/
def noCallbacks : sMemoryCallbacks :=
  { alloc := none, alignedAlloc := none, release := none, realloc := none,
    outOfMemory := none }

/-- Collaborators that all succeed: the block is at `0x10000`, the pool handle
is the block address, the interface is `CC_SINGLE` with four entry points,
`fmInit` returns `0`, and the gate admits every write. -/
def envOk : Env :=
  { Mxalloc := fun _ _ => 0x10000
    create_mspace_with_base := fun base _ _ => base
    fmCreateInterface := fun cfg =>
      { setup := cfg.setup, write := some 1, enqueWrite := some 2, flush := some 3,
        reset := some 4 }
    fmInit := fun iface _ => (0, iface)
    emulateDualOpl2OnOpl3 := fun _ _ _ => true }

/-- What the claim on `init` names as its condition of success: the adapter is
not incapable, the block allocation and the pool creation succeed, the created
interface has a setup other than `CC_UNDEFINED`, and `fmInit` returns a value
`>= 0`. -/
def initConditions (env : Env) (m : Machine) : Prop :=
  m.opl._incapableDevice = false ∧
  env.Mxalloc 1280 3 ≠ 0 ∧
  env.create_mspace_with_base (env.Mxalloc 1280 3) 1024 0 ≠ 0 ∧
  (env.fmCreateInterface m.opl._ifaceCfg).setup ≠ eChipSetup.CC_UNDEFINED ∧
  (env.fmInit (env.fmCreateInterface m.opl._ifaceCfg) m.opl._params).1 ≥ 0

instance (env : Env) (m : Machine) : Decidable (initConditions env m) := by
  unfold initConditions
  infer_instance

/-- Collaborators as in `envOk`, except that `fmInit` returns `-1`. -/
def envInitFails : Env :=
  { envOk with fmInit := fun iface _ => (-1, iface) }

/-- The register index as the claim on `writeReg` masks it: to `0xFF` for
`kOpl2`, to `0x1FF` for `kOpl3` and `kDualOpl2`. -/
def maskedIndex (type : OplType) (reg : Int) : Int :=
  if type = OplType.kOpl2 then reg % 0x100 else reg % 0x200

/-- The record the claim on `writeReg` names: `{bank, reg mod 256, value mod 256}`
with bank `1` exactly when the masked index is `>= 0x100`. -/
def claimedRecord (type : OplType) (reg value : Int) : sOplRegisterWrite :=
  { bank := if maskedIndex type reg ≥ 0x100 then 1 else 0
    reg := (reg % 256).toNat
    value := (value % 256).toNat }

/-! ## Bit operations on 32-bit patterns -/

theorem and_ff_eq_mod (n : Nat) : n &&& 0xff = n % 256 :=
  Nat.and_pow_two_sub_one_eq_mod n 8

theorem and_1ff_eq_mod (n : Nat) : n &&& 0x1ff = n % 512 :=
  Nat.and_pow_two_sub_one_eq_mod n 9

theorem and_100_eq_bit (n : Nat) : n &&& 0x100 = (n / 256 % 2) * 256 := by
  have h := Nat.and_two_pow n 8
  rw [Nat.toNat_testBit] at h
  simpa using h

theorem lor_bank (a c : Nat) (ha : a < 256) : a ||| (c * 256) = a + c * 256 := by
  have h := Nat.mul_add_lt_is_or (i := 8) (b := a) (by simpa using ha) c
  rw [Nat.lor_comm, Nat.mul_comm c 256]
  simp at h
  omega

theorem toU32_and_ff (x : Int) : Int.ofNat (toU32 x &&& 0xff) = x % 256 := by
  rw [and_ff_eq_mod]; unfold toU32; simp only [Int.ofNat_eq_coe]; omega

theorem toU32_and_1ff (x : Int) : Int.ofNat (toU32 x &&& 0x1ff) = x % 512 := by
  rw [and_1ff_eq_mod]; unfold toU32; simp only [Int.ofNat_eq_coe]; omega

theorem toU32_and_one (x : Int) : Int.ofNat (toU32 x &&& 1) = x % 2 := by
  rw [Nat.and_one_is_mod]; unfold toU32; simp only [Int.ofNat_eq_coe]; omega

theorem toU32_odd_iff (x : Int) : toU32 x &&& 1 ≠ 0 ↔ x % 2 = 1 := by
  have h := toU32_and_one x
  simp only [Int.ofNat_eq_coe] at h
  omega

theorem toU32_bank_bit (p : Int) :
    Int.ofNat (((toU32 p <<< 7) % 4294967296) &&& 0x100) = 256 * (p / 2 % 2) := by
  rw [and_100_eq_bit, Nat.shiftLeft_eq]; unfold toU32; simp only [Int.ofNat_eq_coe]; omega

theorem select_opl3 (p v : Int) :
    Int.ofNat ((toU32 v &&& 0xff) ||| (((toU32 p <<< 7) % 4294967296) &&& 0x100))
      = v % 256 + 256 * (p / 2 % 2) := by
  have hv := toU32_and_ff v
  have hp := toU32_bank_bit p
  have hlt : toU32 v &&& 0xff < 256 := by rw [and_ff_eq_mod]; omega
  rw [and_100_eq_bit] at hp ⊢
  rw [lor_bank _ _ hlt]
  simp only [Int.ofNat_eq_coe] at hv hp ⊢
  omega

/-! ## Lemmas on single calls -/

theorem writeReg_m (env : Env) (m : Machine) (reg value : Int) :
    (writeReg env m reg value).m = m := by
  unfold writeReg
  simp only
  repeat' split
  all_goals rfl

theorem writeRegCalls_writeReg (env : Env) (m : Machine) (reg value : Int) :
    writeRegCalls (writeReg env m reg value).events = [(reg, value)] := by
  unfold writeReg
  simp only
  repeat' split
  all_goals simp [writeRegCalls]

theorem init_true_iff (env : Env) (m : Machine) :
    (init env m).1 = true ↔ initConditions env m := by
  unfold init initConditions FMLIB_MSPACE_SIZE
  simp only [Int.ofNat_eq_coe, Nat.cast_ofNat, Nat.one_mul, ne_eq, ge_iff_le]
  norm_num
  by_cases h1 : m.opl._incapableDevice = true
  · simp [h1]
  · by_cases h2 : env.Mxalloc 1280 3 = 0
    · simp [h1, h2]
    · by_cases h3 : env.create_mspace_with_base (env.Mxalloc 1280 3) 1024 0 = 0
      · simp [h1, h2, h3]
      · by_cases h4 : (env.fmCreateInterface m.opl._ifaceCfg).setup = eChipSetup.CC_UNDEFINED
        · simp [h1, h2, h3, h4]
        · by_cases h5 : 0 ≤ (env.fmInit (env.fmCreateInterface m.opl._ifaceCfg) m.opl._params).1
          · simp [h1, h2, h3, h4, h5]
          · simp [h1, h2, h3, h4, h5]

theorem init_activeReg (env : Env) (m : Machine) :
    (init env m).2.m.opl._activeReg = m.opl._activeReg := by
  unfold init
  simp only
  repeat' split
  all_goals rfl

theorem init_type (env : Env) (m : Machine) :
    (init env m).2.m.opl._type = m.opl._type := by
  unfold init
  simp only
  repeat' split
  all_goals rfl

theorem init_fault (env : Env) (m : Machine) : (init env m).2.fault = false := by
  unfold init
  simp only
  repeat' split
  all_goals rfl

theorem init_success_fields (env : Env) (m : Machine) (h : initConditions env m) :
    (init env m).2.m.opl._oplWrite
        = (env.fmInit (env.fmCreateInterface m.opl._ifaceCfg) m.opl._params).2.write
      ∧ (init env m).2.m.opl._oplEnqueWrite
        = (env.fmInit (env.fmCreateInterface m.opl._ifaceCfg) m.opl._params).2.enqueWrite
      ∧ (init env m).2.m.opl._oplFlush
        = (env.fmInit (env.fmCreateInterface m.opl._ifaceCfg) m.opl._params).2.flush
      ∧ (init env m).2.m.opl._oplReset
        = (env.fmInit (env.fmCreateInterface m.opl._ifaceCfg) m.opl._params).2.reset
      ∧ (init env m).2.m.opl._initialized = true := by
  obtain ⟨h1, h2, h3, h4, h5⟩ := h
  unfold init FMLIB_MSPACE_SIZE
  simp only [Int.ofNat_eq_coe, Nat.cast_ofNat, Nat.one_mul, ne_eq, ge_iff_le]
  norm_num
  simp [h1, h2, h3, h4, h5]

theorem init_failure_frame (env : Env) (m : Machine) (h : ¬ initConditions env m) :
    (init env m).2.m.opl._oplWrite = m.opl._oplWrite
      ∧ (init env m).2.m.opl._oplEnqueWrite = m.opl._oplEnqueWrite
      ∧ (init env m).2.m.opl._oplFlush = m.opl._oplFlush
      ∧ (init env m).2.m.opl._oplReset = m.opl._oplReset
      ∧ (init env m).2.m.opl._initialized = m.opl._initialized
      ∧ (init env m).2.events.filter isRegisterWrite = [] := by
  have hf : (init env m).1 = false := by
    cases hb : (init env m).1
    · rfl
    · exact absurd ((init_true_iff env m).1 hb) h
  revert hf
  unfold init
  simp only
  repeat' split
  all_goals simp [isRegisterWrite]

theorem fresh_pointers (type : OplType) (deviceType : OplDevice)
    (msp : Nat) (cb : sMemoryCallbacks) (base : Nat) :
    (fresh type deviceType msp cb base).opl._oplWrite = none
      ∧ (fresh type deviceType msp cb base).opl._oplEnqueWrite = none
      ∧ (fresh type deviceType msp cb base).opl._oplFlush = none
      ∧ (fresh type deviceType msp cb base).opl._oplReset = none
      ∧ (fresh type deviceType msp cb base).opl._initialized = false
      ∧ (fresh type deviceType msp cb base).opl._activeReg = 0
      ∧ (fresh type deviceType msp cb base).opl._type = type := by
  simp only [fresh, OPL_new]
  split_ifs <;> simp

theorem write_even_eq (env : Env) (m : Machine)
    (portAddress value : Int) (heven : portAddress % 2 = 0) :
    write env m portAddress value
      = { m := { m with opl := { m.opl with
                  _activeReg :=
                    if m.opl._type = OplType.kOpl2 then value % 256
                    else value % 256 + 0x100 * (portAddress / 2 % 2) } }
          events := []
          fault := false } := by
  have hodd : ¬ (toU32 portAddress &&& 1 ≠ 0) := by
    rw [toU32_odd_iff]; omega
  unfold write
  rw [if_neg hodd]
  by_cases ht : m.opl._type = OplType.kOpl2
  · rw [if_pos ht, if_pos ht, toU32_and_ff]
  · rw [if_neg ht, if_neg ht, select_opl3]

/-! ## The claims -/

/-- C1: for an adapter constructed with an OPL2-only device (`dtNokturnFM2`,
`dtOPL2LPT`, `dtOPL2AudioBoard`) and chip type `kOpl3` or `kDualOpl2`, `init()`
returns `false`, makes no call at all (neither to the allocator nor to the
vendor library), changes nothing, and leaves the adapter uninitialized. -/
theorem C1_init_incapable_makes_no_call (env : Env) (type : OplType)
    (deviceType : OplDevice) (msp : Nat) (cb : sMemoryCallbacks) (base : Nat)
    (hdev : deviceType = dtNokturnFM2 ∨ deviceType = dtOPL2LPT
      ∨ deviceType = dtOPL2AudioBoard)
    (htype : type = OplType.kOpl3 ∨ type = OplType.kDualOpl2) :
    init env (fresh type deviceType msp cb base)
        = (false, { m := fresh type deviceType msp cb base, events := [], fault := false })
      ∧ (init env (fresh type deviceType msp cb base)).2.m.opl._initialized = false := by
  have hinc : (fresh type deviceType msp cb base).opl._incapableDevice = true := by
    rcases hdev with h | h | h <;> rcases htype with t | t <;> subst h <;> subst t <;> rfl
  have hi := (fresh_pointers type deviceType msp cb base).2.2.2.2.1
  have heq : init env (fresh type deviceType msp cb base)
      = (false, { m := fresh type deviceType msp cb base, events := [], fault := false }) := by
    unfold init
    simp [hinc]
  refine ⟨heq, ?_⟩
  rw [heq]
  exact hi

/-- Witness of C1 at `(kOpl3, dtNokturnFM2)`. -/
theorem C1_witness :
    (dtNokturnFM2 = dtNokturnFM2 ∨ dtNokturnFM2 = dtOPL2LPT ∨ dtNokturnFM2 = dtOPL2AudioBoard)
      ∧ (OplType.kOpl3 = OplType.kOpl3 ∨ OplType.kOpl3 = OplType.kDualOpl2)
      ∧ init envOk (fresh OplType.kOpl3 dtNokturnFM2 0 noCallbacks 0)
        = (false, { m := fresh OplType.kOpl3 dtNokturnFM2 0 noCallbacks 0, events := [],
                    fault := false })
      ∧ (init envOk (fresh OplType.kOpl3 dtNokturnFM2 0 noCallbacks 0)).2.m.opl._initialized
        = false :=
  ⟨Or.inl rfl, Or.inl rfl,
    C1_init_incapable_makes_no_call envOk OplType.kOpl3 dtNokturnFM2 0 noCallbacks 0
      (Or.inl rfl) (Or.inl rfl)⟩

/-- C2: on a freshly constructed adapter, whatever the collaborators answer,
`init()` returns `true` exactly when the adapter is not incapable, the block
allocation and the pool creation succeed, the created interface has a setup
other than `CC_UNDEFINED` and `fmInit` returns a value `>= 0`; then the four
function pointers are those of the interface and the initialized flag is set.
In every other case `init()` returns `false`, the initialized flag stays
`false`, the four pointers stay null and no register write is issued. -/
theorem C2_init_true_iff_conditions (env : Env) (type : OplType)
    (deviceType : OplDevice) (msp : Nat) (cb : sMemoryCallbacks) (base : Nat) :
    ((init env (fresh type deviceType msp cb base)).1 = true
        ↔ initConditions env (fresh type deviceType msp cb base))
      ∧ (initConditions env (fresh type deviceType msp cb base) →
          (init env (fresh type deviceType msp cb base)).2.m.opl._oplWrite
              = (env.fmInit
                  (env.fmCreateInterface (fresh type deviceType msp cb base).opl._ifaceCfg)
                  (fresh type deviceType msp cb base).opl._params).2.write
            ∧ (init env (fresh type deviceType msp cb base)).2.m.opl._oplEnqueWrite
              = (env.fmInit
                  (env.fmCreateInterface (fresh type deviceType msp cb base).opl._ifaceCfg)
                  (fresh type deviceType msp cb base).opl._params).2.enqueWrite
            ∧ (init env (fresh type deviceType msp cb base)).2.m.opl._oplFlush
              = (env.fmInit
                  (env.fmCreateInterface (fresh type deviceType msp cb base).opl._ifaceCfg)
                  (fresh type deviceType msp cb base).opl._params).2.flush
            ∧ (init env (fresh type deviceType msp cb base)).2.m.opl._oplReset
              = (env.fmInit
                  (env.fmCreateInterface (fresh type deviceType msp cb base).opl._ifaceCfg)
                  (fresh type deviceType msp cb base).opl._params).2.reset
            ∧ (init env (fresh type deviceType msp cb base)).2.m.opl._initialized = true)
      ∧ (¬ initConditions env (fresh type deviceType msp cb base) →
          (init env (fresh type deviceType msp cb base)).1 = false
            ∧ (init env (fresh type deviceType msp cb base)).2.m.opl._initialized = false
            ∧ (init env (fresh type deviceType msp cb base)).2.m.opl._oplWrite = none
            ∧ (init env (fresh type deviceType msp cb base)).2.m.opl._oplEnqueWrite = none
            ∧ (init env (fresh type deviceType msp cb base)).2.m.opl._oplFlush = none
            ∧ (init env (fresh type deviceType msp cb base)).2.m.opl._oplReset = none
            ∧ (init env (fresh type deviceType msp cb base)).2.events.filter isRegisterWrite
              = []) := by
  obtain ⟨p1, p2, p3, p4, p5, _, _⟩ := fresh_pointers type deviceType msp cb base
  refine ⟨init_true_iff env _, init_success_fields env _, ?_⟩
  intro h
  obtain ⟨f1, f2, f3, f4, f5, f6⟩ := init_failure_frame env _ h
  refine ⟨?_, by rw [f5, p5], by rw [f1, p1], by rw [f2, p2], by rw [f3, p3],
    by rw [f4, p4], f6⟩
  cases hb : (init env (fresh type deviceType msp cb base)).1
  · rfl
  · exact absurd ((init_true_iff env _).1 hb) h

/-- Witness of C2 at `(kOpl2, dtNokturnFM2)` with all collaborators
succeeding: the conditions hold, `init()` returns `true` and captures the four
entry points. -/
theorem C2_witness :
    initConditions envOk (fresh OplType.kOpl2 dtNokturnFM2 0 noCallbacks 0)
      ∧ (init envOk (fresh OplType.kOpl2 dtNokturnFM2 0 noCallbacks 0)).1 = true
      ∧ (init envOk (fresh OplType.kOpl2 dtNokturnFM2 0 noCallbacks 0)).2.m.opl._oplEnqueWrite
        = some 2
      ∧ (init envOk (fresh OplType.kOpl2 dtNokturnFM2 0 noCallbacks 0)).2.m.opl._initialized
        = true :=
  have hc : initConditions envOk (fresh OplType.kOpl2 dtNokturnFM2 0 noCallbacks 0) :=
    by decide
  have h := C2_init_true_iff_conditions envOk OplType.kOpl2 dtNokturnFM2 0 noCallbacks 0
  ⟨hc, h.1.2 hc, (h.2.1 hc).2.1, (h.2.1 hc).2.2.2.2⟩

/-- C7 as stated fails: constructing with the unsupported identifier `7`
(`dtNumDevices`) and chip type `kOpl2` leaves operation mode `CO_OPL2` and
setup `CC_SINGLE`, not a fully-undefined configuration. -/
theorem C7_counterexample :
    (OPL_new OplType.kOpl2 7).1._ifaceCfg
        ≠ { deviceType := eFmDriverType.FMD_UNDEFINED
            soundchip := eSoundChip.CM_UNDEFINED
            operationMode := eOperationMode.CO_UNDEFINED
            setup := eChipSetup.CC_UNDEFINED }
      ∧ (OPL_new OplType.kOpl2 7).1._ifaceCfg.operationMode = eOperationMode.CO_OPL2
      ∧ (OPL_new OplType.kOpl2 7).1._ifaceCfg.setup = eChipSetup.CC_SINGLE := by
  decide

/-- C7 (amended): for every device identifier that is not one of the seven
supported devices and every chip type, construction completes (with a warning)
and leaves device type `FMD_UNDEFINED` and sound chip `CM_UNDEFINED`, while the
operation mode is the one of the chip type (`CO_OPL2` for `kOpl2`, `CO_OPL3`
for `kOpl3` and `kDualOpl2`) and the setup is `CC_SINGLE`; the adapter is not
marked incapable. -/
theorem C7_unknown_device_configuration (type : OplType) (deviceType : OplDevice)
    (h0 : deviceType ≠ dtNokturnFM2) (h1 : deviceType ≠ dtNokturnFM3)
    (h2 : deviceType ≠ dtRWOpl3Express) (h3 : deviceType ≠ dtOPL2LPT)
    (h4 : deviceType ≠ dtOPL3LPT) (h5 : deviceType ≠ dtOPL2AudioBoard)
    (h6 : deviceType ≠ dtOPL3Duo) :
    (OPL_new type deviceType).1._ifaceCfg
        = { deviceType := eFmDriverType.FMD_UNDEFINED
            soundchip := eSoundChip.CM_UNDEFINED
            operationMode :=
              if type = OplType.kOpl2 then eOperationMode.CO_OPL2 else eOperationMode.CO_OPL3
            setup := eChipSetup.CC_SINGLE }
      ∧ (OPL_new type deviceType).1._incapableDevice = false
      ∧ (OPL_new type deviceType).2
        = [Event.Supexec_updateHardwareInfo, Event.warning_unrecognizedDevice] := by
  simp only [OPL_new, h0, h1, h2, h3, h4, h5, h6, if_false]
  cases type <;> simp

/-- Witness of the amended C7 at the identifier `100` and chip type `kOpl3`. -/
theorem C7_witness :
    (OPL_new OplType.kOpl3 100).1._ifaceCfg
        = { deviceType := eFmDriverType.FMD_UNDEFINED
            soundchip := eSoundChip.CM_UNDEFINED
            operationMode := eOperationMode.CO_OPL3
            setup := eChipSetup.CC_SINGLE }
      ∧ (OPL_new OplType.kOpl3 100).1._incapableDevice = false
      ∧ (OPL_new OplType.kOpl3 100).2
        = [Event.Supexec_updateHardwareInfo, Event.warning_unrecognizedDevice] :=
  C7_unknown_device_configuration OplType.kOpl3 100 (by decide) (by decide) (by decide)
    (by decide) (by decide) (by decide) (by decide)

/-- C10: for every even port address and every value, `write` sets the active
register to `value mod 256` on `kOpl2` and to
`value mod 256 + 0x100 * b` on `kOpl3` and `kDualOpl2`, where `b` is bit 1 of
the port address; nothing else in the adapter or the module statics changes
and no call is made. -/
theorem C10_write_even_selects_register (env : Env) (m : Machine)
    (portAddress value : Int) (heven : portAddress % 2 = 0) :
    write env m portAddress value
      = { m := { m with opl := { m.opl with
                  _activeReg :=
                    if m.opl._type = OplType.kOpl2 then value % 256
                    else value % 256 + 0x100 * (portAddress / 2 % 2) } }
          events := []
          fault := false } :=
  write_even_eq env m portAddress value heven

/-- Witness of C10: on an OPL3 adapter the second port pair (`0x38A`) with
value `0x20` selects register `0x120`; on an OPL2 adapter it selects `0x20`. -/
theorem C10_witness :
    (0x38A : Int) % 2 = 0
      ∧ (write envOk (fresh OplType.kOpl3 dtNokturnFM3 0 noCallbacks 0) 0x38A 0x20).m.opl._activeReg
        = 0x120
      ∧ (write envOk (fresh OplType.kOpl2 dtNokturnFM2 0 noCallbacks 0) 0x38A 0x20).m.opl._activeReg
        = 0x20 :=
  ⟨by decide,
    by rw [C10_write_even_selects_register envOk _ 0x38A 0x20 (by decide)]; decide,
    by rw [C10_write_even_selects_register envOk _ 0x38A 0x20 (by decide)]; decide⟩

theorem write_odd_eq (env : Env) (m : Machine) (portAddress value : Int)
    (hodd : portAddress % 2 = 1) :
    write env m portAddress value = writeReg env m m.opl._activeReg value := by
  unfold write
  rw [if_pos ((toU32_odd_iff portAddress).2 hodd)]

/-- C3: `write` with an even port address issues no `writeReg` call; with an
odd port address it issues exactly one `writeReg` call, with arguments (active
register, value), and leaves the active register unchanged; after an even-port
write the next odd-port write passes the register that even-port write
selected. -/
theorem C3_write_writeReg_calls (env : Env) (m : Machine) (portAddress value : Int) :
    (portAddress % 2 = 0 → writeRegCalls (write env m portAddress value).events = [])
      ∧ (portAddress % 2 = 1 →
          writeRegCalls (write env m portAddress value).events
              = [(m.opl._activeReg, value)]
            ∧ (write env m portAddress value).m.opl._activeReg = m.opl._activeReg)
      ∧ (∀ (env0 : Env) (port0 value0 : Int), port0 % 2 = 0 → portAddress % 2 = 1 →
          writeRegCalls
              (write env (write env0 m port0 value0).m portAddress value).events
            = [(if m.opl._type = OplType.kOpl2 then value0 % 256
                else value0 % 256 + 0x100 * (port0 / 2 % 2), value)]) := by
  refine ⟨?_, ?_, ?_⟩
  · intro h
    rw [write_even_eq env m portAddress value h]
    rfl
  · intro h
    rw [write_odd_eq env m portAddress value h, writeRegCalls_writeReg, writeReg_m]
    exact ⟨rfl, rfl⟩
  · intro env0 port0 value0 h0 h
    rw [write_odd_eq env _ portAddress value h, writeRegCalls_writeReg,
      write_even_eq env0 m port0 value0 h0]

/-- Witness of C3: on an initialized OPL2 adapter, `write(0x388, 0x20)`
followed by `write(0x389, 0x01)` issues exactly one call, `writeReg(0x20, 0x01)`. -/
theorem C3_witness :
    (0x388 : Int) % 2 = 0 ∧ (0x389 : Int) % 2 = 1
      ∧ writeRegCalls
          (write envOk
            (init envOk (fresh OplType.kOpl2 dtNokturnFM2 0 noCallbacks 0)).2.m
            0x388 0x20).events = []
      ∧ writeRegCalls
          (write envOk
            (write envOk
              (init envOk (fresh OplType.kOpl2 dtNokturnFM2 0 noCallbacks 0)).2.m
              0x388 0x20).m
            0x389 0x01).events = [(0x20, 0x01)] :=
  ⟨by decide, by decide,
    (C3_write_writeReg_calls envOk
      (init envOk (fresh OplType.kOpl2 dtNokturnFM2 0 noCallbacks 0)).2.m 0x388 0x20).1
      (by decide),
    (C3_write_writeReg_calls envOk
      (init envOk (fresh OplType.kOpl2 dtNokturnFM2 0 noCallbacks 0)).2.m 0x389 0x01).2.2
      envOk 0x388 0x20 (by decide) (by decide)⟩

/-- C5: on an adapter holding the vendor enqueue-write entry point `fp`, for
every chip type and all integers `reg` and `value`, whenever the dual-OPL2 gate
admits the write, `writeReg(reg, value)` makes exactly one call through a vendor
write entry point: one record through enqueue-write and none through the direct
write, whatever the buffering flag is.  The record is
`{bank, reg mod 256, value mod 256}`, the index being masked to `0x1FF` for
`kOpl3`/`kDualOpl2` and to `0xFF` for `kOpl2`, with bank `1` exactly when the
masked index is `>= 0x100`; the bank is `0` on `kOpl2`. -/
theorem C5_writeReg_forwards_one_record (env : Env) (m : Machine) (reg value : Int)
    (fp : Nat) (hfp : m.opl._oplEnqueWrite = some fp)
    (hgate : env.emulateDualOpl2OnOpl3 (maskedIndex m.opl._type reg).toNat
      (value % 256).toNat m.opl._type = true) :
    vendorWrites (writeReg env m reg value).events
        = [Event.oplEnqueWrite fp (claimedRecord m.opl._type reg value)]
      ∧ (writeReg env m reg value).fault = false
      ∧ (writeReg env m reg value).m = m
      ∧ (m.opl._type = OplType.kOpl2 → (claimedRecord m.opl._type reg value).bank = 0) := by
  have hv : toU32 value &&& 0xff = (value % 256).toNat := by
    have h := toU32_and_ff value
    simp only [Int.ofNat_eq_coe] at h
    omega
  have hr8 : toU32 reg &&& 0xff = (reg % 256).toNat := by
    have h := toU32_and_ff reg
    simp only [Int.ofNat_eq_coe] at h
    omega
  have hr9 : toU32 reg &&& 0x1ff = (reg % 512).toNat := by
    have h := toU32_and_1ff reg
    simp only [Int.ofNat_eq_coe] at h
    omega
  refine ⟨?_, ?_, writeReg_m env m reg value, ?_⟩
  · unfold writeReg
    simp only [hv, hr8, hr9, hfp]
    by_cases ht : m.opl._type = OplType.kOpl2
    · have hn : ¬ (m.opl._type = OplType.kOpl3 ∨ m.opl._type = OplType.kDualOpl2) := by
        rw [ht]; decide
      simp only [maskedIndex, if_pos ht] at hgate
      simp only [if_neg hn, hgate, if_true, vendorWrites, claimedRecord, maskedIndex, if_pos ht]
      have h1 : (reg % 256).toNat < 256 := by omega
      have h2 : ¬ (reg % 256 ≥ 256) := by omega
      have h3 : (reg % 256).toNat % 256 = (reg % 256).toNat := by omega
      have h4 : (value % 256).toNat % 256 = (value % 256).toNat := by omega
      norm_num
      simp [h1, h2, h3, h4]
    · have hp : m.opl._type = OplType.kOpl3 ∨ m.opl._type = OplType.kDualOpl2 := by
        cases hty : m.opl._type
        · exact absurd hty ht
        · exact Or.inr rfl
        · exact Or.inl rfl
      simp only [maskedIndex, if_neg ht] at hgate
      simp only [if_pos hp, hgate, if_true, vendorWrites, claimedRecord, maskedIndex, if_neg ht]
      have h3 : (reg % 512).toNat % 256 = (reg % 256).toNat := by omega
      have h4 : (value % 256).toNat % 256 = (value % 256).toNat := by omega
      norm_num
      by_cases hb : (reg % 512).toNat < 256
      · have h2 : ¬ (256 ≤ reg % 512) := by omega
        simp [hb, h2, h3, h4]
      · have h2 : (256 ≤ reg % 512) := by omega
        simp [hb, h2, h3, h4]
  · unfold writeReg
    simp only [hfp]
    repeat' split
    all_goals rfl
  · intro ht
    simp only [claimedRecord, maskedIndex, if_pos ht]
    have h2 : ¬ (reg % 256 ≥ 256) := by omega
    norm_num
    omega

/-- Witness of C5: on an initialized OPL3 adapter whose gate admits the write,
`writeReg(0x1B0, 0x13F)` enqueues exactly the record `{1, 0xB0, 0x3F}`. -/
theorem C5_witness :
    (init envOk (fresh OplType.kOpl3 dtNokturnFM3 0 noCallbacks 0)).2.m.opl._oplEnqueWrite
        = some 2
      ∧ vendorWrites
          (writeReg envOk (init envOk (fresh OplType.kOpl3 dtNokturnFM3 0 noCallbacks 0)).2.m
            0x1B0 0x13F).events
        = [Event.oplEnqueWrite 2 { bank := 1, reg := 0xB0, value := 0x3F }] :=
  ⟨rfl,
    (C5_writeReg_forwards_one_record envOk
      (init envOk (fresh OplType.kOpl3 dtNokturnFM3 0 noCallbacks 0)).2.m 0x1B0 0x13F 2
      rfl rfl).1⟩

theorem writeRegCalls_append (a b : List Event) :
    writeRegCalls (a ++ b) = writeRegCalls a ++ writeRegCalls b := by
  induction a with
  | nil => rfl
  | cons e rest ih =>
    cases e <;> simp [writeRegCalls, ih]

theorem writeReg_fault_of_some (env : Env) (m : Machine) (reg value : Int) (fp : Nat)
    (hfp : m.opl._oplEnqueWrite = some fp) : (writeReg env m reg value).fault = false := by
  unfold writeReg
  simp only [hfp]
  repeat' split
  all_goals rfl

theorem resetLoop_m (env : Env) (offset : Int) (l : List Nat) (m : Machine) :
    (resetLoop env offset l m).m = m := by
  induction l with
  | nil => rfl
  | cons i rest ih =>
    unfold resetLoop
    simp only
    split
    · exact writeReg_m env m _ _
    · simp only [writeReg_m]
      exact ih

theorem resetLoop_of_some (env : Env) (offset : Int) (l : List Nat) (m : Machine) (fp : Nat)
    (hfp : m.opl._oplEnqueWrite = some fp) :
    (resetLoop env offset l m).fault = false
      ∧ writeRegCalls (resetLoop env offset l m).events
        = l.map (fun i => (Int.ofNat i + offset, (0 : Int))) := by
  induction l with
  | nil => exact ⟨rfl, rfl⟩
  | cons i rest ih =>
    unfold resetLoop
    simp only [writeReg_fault_of_some env m _ _ fp hfp, writeReg_m, Bool.false_eq_true,
      if_false, writeRegCalls_append, writeRegCalls_writeReg, ih.1, ih.2]
    simp

theorem range_pairs_split (n : Nat) :
    (List.range (n + n)).map (fun i => (Int.ofNat i, (0 : Int)))
      = (List.range n).map (fun i => (Int.ofNat i + 0, (0 : Int)))
        ++ (List.range n).map (fun i => (Int.ofNat i + (n : Int), (0 : Int))) := by
  rw [List.range_add, List.map_append, List.map_map]
  congr 1
  · simp
    intro a _
    omega

theorem reset_frame (env : Env) (m : Machine) :
    (reset env m).m = m
      ∨ (reset env m).m = { m with opl := { m.opl with _activeReg := 0 } } := by
  unfold reset
  simp only [resetLoop_m]
  repeat' split
  all_goals simp [resetLoop_m]

theorem reset_of_some (env : Env) (m : Machine) (fp : Nat)
    (hfp : m.opl._oplEnqueWrite = some fp) :
    (reset env m).fault = false
      ∧ (reset env m).m = { m with opl := { m.opl with _activeReg := 0 } }
      ∧ writeRegCalls (reset env m).events
        = (List.range (if m.opl._type = OplType.kOpl2 then 256 else 512)).map
            (fun i => (Int.ofNat i, (0 : Int))) := by
  have h0 := resetLoop_of_some env 0 (List.range 256) m fp hfp
  have h1 := resetLoop_of_some env 256 (List.range 256) m fp hfp
  have hsplit : (List.range 512).map (fun i => (Int.ofNat i, (0 : Int)))
      = (List.range 256).map (fun i => (Int.ofNat i + 0, (0 : Int)))
        ++ (List.range 256).map (fun i => (Int.ofNat i + 256, (0 : Int))) :=
    range_pairs_split 256
  have hsame : (List.range 256).map (fun i => (Int.ofNat i, (0 : Int)))
      = (List.range 256).map (fun i => (Int.ofNat i + 0, (0 : Int))) := by
    simp
  unfold reset
  simp only [resetLoop_m, h0.1, h1.1, Bool.false_eq_true, if_false]
  by_cases ht : m.opl._type = OplType.kOpl2
  · have hn : ¬ (m.opl._type = OplType.kOpl3 ∨ m.opl._type = OplType.kDualOpl2) := by
      rw [ht]; decide
    simp only [if_neg hn, h0.1, Bool.false_eq_true, if_false, resetLoop_m, if_pos ht,
      writeRegCalls_append, h0.2, hsame]
    simp [writeRegCalls]
  · have hp : m.opl._type = OplType.kOpl3 ∨ m.opl._type = OplType.kDualOpl2 := by
      cases hty : m.opl._type
      · exact absurd hty ht
      · exact Or.inr rfl
      · exact Or.inl rfl
    simp only [if_pos hp, h1.1, Bool.false_eq_true, if_false, resetLoop_m, if_neg ht,
      writeRegCalls_append, h0.2, h1.2, hsplit]
    simp [writeRegCalls]

/-- C6 as stated fails: on a constructed adapter that was never initialized
the enqueue-write pointer is null, so with a gate that admits the write
`reset()` stops at the call through `nullptr` after its first `writeReg` call:
one `writeReg` call is issued, not 256. -/
theorem C6_counterexample :
    (fresh OplType.kOpl2 dtNokturnFM2 0 noCallbacks 0).opl._oplEnqueWrite = none
      ∧ (reset envOk (fresh OplType.kOpl2 dtNokturnFM2 0 noCallbacks 0)).fault = true
      ∧ writeRegCalls (reset envOk (fresh OplType.kOpl2 dtNokturnFM2 0 noCallbacks 0)).events
        = [(0, 0)]
      ∧ (writeRegCalls
          (reset envOk (fresh OplType.kOpl2 dtNokturnFM2 0 noCallbacks 0)).events).length
        ≠ 256 := by
  refine ⟨rfl, ?_, ?_, ?_⟩ <;> decide

/-- C6 (amended): for every adapter state whose enqueue-write pointer is set
(as a successful `init()` leaves it), `reset()` issues exactly 256 `writeReg`
calls on `kOpl2` and exactly 512 on `kOpl3` and `kDualOpl2`, every one with
value 0, for the register indices `0..255` (respectively `0..511`) each once
in ascending order; `reset()` returns, the active register is then 0 and
nothing else in the adapter has changed. -/
theorem C6_reset_writes_every_register (env : Env) (m : Machine) (fp : Nat)
    (hfp : m.opl._oplEnqueWrite = some fp) :
    writeRegCalls (reset env m).events
        = (List.range (if m.opl._type = OplType.kOpl2 then 256 else 512)).map
            (fun i => (Int.ofNat i, (0 : Int)))
      ∧ (writeRegCalls (reset env m).events).length
        = (if m.opl._type = OplType.kOpl2 then 256 else 512)
      ∧ (reset env m).fault = false
      ∧ (reset env m).m.opl._activeReg = 0
      ∧ (reset env m).m = { m with opl := { m.opl with _activeReg := 0 } } := by
  obtain ⟨h1, h2, h3⟩ := reset_of_some env m fp hfp
  refine ⟨h3, ?_, h1, ?_, h2⟩
  · rw [h3, List.length_map, List.length_range]
  · rw [h2]

/-- Witness of the amended C6: an initialized OPL2 adapter with active
register left at `0x20`. -/
theorem C6_witness :
    (write envOk (init envOk (fresh OplType.kOpl2 dtNokturnFM2 0 noCallbacks 0)).2.m
        0x388 0x20).m.opl._oplEnqueWrite = some 2
      ∧ (write envOk (init envOk (fresh OplType.kOpl2 dtNokturnFM2 0 noCallbacks 0)).2.m
        0x388 0x20).m.opl._activeReg = 0x20
      ∧ (writeRegCalls
          (reset envOk
            (write envOk (init envOk (fresh OplType.kOpl2 dtNokturnFM2 0 noCallbacks 0)).2.m
              0x388 0x20).m).events).length = 256
      ∧ (reset envOk
          (write envOk (init envOk (fresh OplType.kOpl2 dtNokturnFM2 0 noCallbacks 0)).2.m
            0x388 0x20).m).m.opl._activeReg = 0 :=
  ⟨rfl, by decide,
    (C6_reset_writes_every_register envOk
      (write envOk (init envOk (fresh OplType.kOpl2 dtNokturnFM2 0 noCallbacks 0)).2.m
        0x388 0x20).m 2 rfl).2.1,
    (C6_reset_writes_every_register envOk
      (write envOk (init envOk (fresh OplType.kOpl2 dtNokturnFM2 0 noCallbacks 0)).2.m
        0x388 0x20).m 2 rfl).2.2.2.1⟩

theorem onTimer_m (m : Machine) : (onTimer m).m = m := by
  unfold onTimer
  repeat' split
  all_goals rfl

theorem write_frame (env : Env) (m : Machine) (portAddress value : Int) :
    (write env m portAddress value).m.opl._type = m.opl._type
      ∧ (write env m portAddress value).m.opl._initialized = m.opl._initialized
      ∧ ((0 ≤ m.opl._activeReg
            ∧ m.opl._activeReg ≤ (if m.opl._type = OplType.kOpl2 then 0xFF else 0x1FF)) →
          (0 ≤ (write env m portAddress value).m.opl._activeReg
            ∧ (write env m portAddress value).m.opl._activeReg
              ≤ (if m.opl._type = OplType.kOpl2 then 0xFF else 0x1FF))) := by
  rcases Int.emod_two_eq_zero_or_one portAddress with h | h
  · rw [write_even_eq env m portAddress value h]
    refine ⟨rfl, rfl, ?_⟩
    intro _
    by_cases ht : m.opl._type = OplType.kOpl2
    · simp only [if_pos ht]
      omega
    · simp only [if_neg ht]
      omega
  · rw [write_odd_eq env m portAddress value h, writeReg_m]
    exact ⟨rfl, rfl, fun hb => hb⟩

theorem step_frame (env : Env) (m : Machine) (c : Call) :
    (step env m c).2.m.opl._type = m.opl._type
      ∧ ((step env m c).1 = false →
          (step env m c).2.m.opl._initialized = m.opl._initialized)
      ∧ ((0 ≤ m.opl._activeReg
            ∧ m.opl._activeReg ≤ (if m.opl._type = OplType.kOpl2 then 0xFF else 0x1FF)) →
          (0 ≤ (step env m c).2.m.opl._activeReg
            ∧ (step env m c).2.m.opl._activeReg
              ≤ (if m.opl._type = OplType.kOpl2 then 0xFF else 0x1FF))) := by
  cases c with
  | init =>
    simp only [step]
    refine ⟨init_type env m, ?_, ?_⟩
    · intro hf
      have hn : ¬ initConditions env m := by
        intro hc
        rw [(init_true_iff env m).2 hc] at hf
        exact Bool.noConfusion hf
      exact (init_failure_frame env m hn).2.2.2.2.1
    · intro hb
      rw [init_activeReg]
      exact hb
  | reset =>
    simp only [step]
    rcases reset_frame env m with h | h
    · rw [h]
      exact ⟨rfl, fun _ => rfl, fun hb => hb⟩
    · rw [h]
      refine ⟨rfl, fun _ => rfl, fun _ => ?_⟩
      by_cases ht : m.opl._type = OplType.kOpl2
      · simp [ht]
      · simp [ht]
  | write portAddress value =>
    simp only [step]
    obtain ⟨h1, h2, h3⟩ := write_frame env m portAddress value
    exact ⟨h1, fun _ => h2, h3⟩
  | writeReg reg value =>
    have h : (step env m (Call.writeReg reg value)).2.m = m := writeReg_m env m reg value
    rw [h]
    exact ⟨rfl, fun _ => rfl, fun hb => hb⟩
  | onTimer =>
    have h : (step env m Call.onTimer).2.m = m := onTimer_m m
    rw [h]
    exact ⟨rfl, fun _ => rfl, fun hb => hb⟩

theorem run_invariant (type : OplType) (calls : List (Env × Call)) (r : Run)
    (ht : r.m.opl._type = type)
    (hb : 0 ≤ r.m.opl._activeReg
      ∧ r.m.opl._activeReg ≤ (if type = OplType.kOpl2 then 0xFF else 0x1FF))
    (hi : r.initOk = false → r.m.opl._initialized = false) :
    (run calls r).m.opl._type = type
      ∧ (0 ≤ (run calls r).m.opl._activeReg
        ∧ (run calls r).m.opl._activeReg ≤ (if type = OplType.kOpl2 then 0xFF else 0x1FF))
      ∧ ((run calls r).initOk = false → (run calls r).m.opl._initialized = false) := by
  induction calls generalizing r with
  | nil => exact ⟨ht, hb, hi⟩
  | cons ec rest ih =>
    obtain ⟨env, c⟩ := ec
    unfold run
    by_cases hf : r.fault = true
    · simp only [hf, if_true]
      exact ⟨ht, hb, hi⟩
    · simp only [hf, if_false]
      obtain ⟨s1, s2, s3⟩ := step_frame env r.m c
      apply ih
      · simp only
        rw [s1]
        exact ht
      · simp only
        rw [ht] at s3
        exact s3 hb
      · simp only [Bool.or_eq_false_iff]
        intro hok
        rw [s2 hok.2]
        exact hi hok.1

theorem delete_of_not_initialized (m : Machine) (h : m.opl._initialized = false) :
    OPL_delete m = { m := m, events := [], fault := false } := by
  unfold OPL_delete
  simp [h]

/-- C4: after construction and after every sequence of calls of `write`,
`writeReg` and `reset` (and of `init` and `onTimer`) with arbitrary integer
arguments and arbitrary answers of the collaborators, the chip type is the one
given at construction and the active register lies in `0..0xFF` when it is
`kOpl2` and in `0..0x1FF` when it is `kOpl3` or `kDualOpl2`. -/
theorem C4_active_register_in_range (type : OplType) (deviceType : OplDevice)
    (msp : Nat) (cb : sMemoryCallbacks) (base : Nat) (calls : List (Env × Call)) :
    (run calls (start type deviceType msp cb base)).m.opl._type = type
      ∧ 0 ≤ (run calls (start type deviceType msp cb base)).m.opl._activeReg
      ∧ (run calls (start type deviceType msp cb base)).m.opl._activeReg
        ≤ (if type = OplType.kOpl2 then 0xFF else 0x1FF) := by
  obtain ⟨_, _, _, _, p5, p6, p7⟩ := fresh_pointers type deviceType msp cb base
  have h := run_invariant type calls (start type deviceType msp cb base) p7
    (by
      show 0 ≤ (fresh type deviceType msp cb base).opl._activeReg
        ∧ (fresh type deviceType msp cb base).opl._activeReg
          ≤ (if type = OplType.kOpl2 then 0xFF else 0x1FF)
      rw [p6]
      cases type <;> simp)
    (fun _ => p5)
  exact ⟨h.1, h.2.1.1, h.2.1.2⟩

/-- C9: for every adapter on which no `init()` has returned `true` (never called
or only failed), after any sequence of other calls, destruction makes no call at
all (no vendor flush, no `fmDeinit`, no `fmDestroyInterface`, no `destroy_mspace`,
no `Mfree`) and changes neither an adapter member nor a module static. -/
theorem C9_delete_uninitialized_is_inert (type : OplType) (deviceType : OplDevice)
    (msp : Nat) (cb : sMemoryCallbacks) (base : Nat) (calls : List (Env × Call))
    (h : (run calls (start type deviceType msp cb base)).initOk = false) :
    OPL_delete (run calls (start type deviceType msp cb base)).m
      = { m := (run calls (start type deviceType msp cb base)).m
          events := []
          fault := false } := by
  obtain ⟨_, _, _, _, p5, p6, p7⟩ := fresh_pointers type deviceType msp cb base
  have hr := run_invariant type calls (start type deviceType msp cb base) p7
    (by
      show 0 ≤ (fresh type deviceType msp cb base).opl._activeReg
        ∧ (fresh type deviceType msp cb base).opl._activeReg
          ≤ (if type = OplType.kOpl2 then 0xFF else 0x1FF)
      rw [p6]
      cases type <;> simp)
    (fun _ => p5)
  exact delete_of_not_initialized _ (hr.2.2 h)

/-- Witness of C9: `init()` is called on an OPL2 adapter and fails at `fmInit`
(after the memory pool was created), an even-port write follows; destruction
then makes no call. -/
theorem C9_witness :
    (run [(envInitFails, Call.init), (envOk, Call.write 0x388 0x20)]
        (start OplType.kOpl2 dtNokturnFM2 0 noCallbacks 0)).initOk = false
      ∧ (OPL_delete
          (run [(envInitFails, Call.init), (envOk, Call.write 0x388 0x20)]
            (start OplType.kOpl2 dtNokturnFM2 0 noCallbacks 0)).m).events = []
      ∧ (run [(envInitFails, Call.init), (envOk, Call.write 0x388 0x20)]
          (start OplType.kOpl2 dtNokturnFM2 0 noCallbacks 0)).m.s_mFMlibSpace = 0x10000 :=
  ⟨by decide,
    congrArg Outcome.events
      (C9_delete_uninitialized_is_inert OplType.kOpl2 dtNokturnFM2 0 noCallbacks 0
        [(envInitFails, Call.init), (envOk, Call.write 0x388 0x20)] (by decide)),
    by decide⟩

/-- C8 fails on the code: on an OPL2 adapter on `dtNokturnFM2`, initialized
successfully, `writeReg(0x20, 0x01)` enqueues a record through the vendor
enqueue-write entry point, and the destructor then releases the vendor
interface and the memory pool without any call through the flush entry point.
The timer tick on the same state does flush, and so does the destructor on
`dtRWOpl3Express`, the one device whose constructor sets the buffering flag. -/
theorem C8_delete_skips_flush :
    (init envOk (fresh OplType.kOpl2 dtNokturnFM2 0 noCallbacks 0)).1 = true
      ∧ vendorWrites
          (writeReg envOk (init envOk (fresh OplType.kOpl2 dtNokturnFM2 0 noCallbacks 0)).2.m
            0x20 0x01).events
        = [Event.oplEnqueWrite 2 { bank := 0, reg := 0x20, value := 0x01 }]
      ∧ (OPL_delete
          (writeReg envOk (init envOk (fresh OplType.kOpl2 dtNokturnFM2 0 noCallbacks 0)).2.m
            0x20 0x01).m).events
        = [Event.fmDeinit, Event.fmDestroyInterface, Event.destroy_mspace 0x10000,
           Event.Mfree 0x10000]
      ∧ (onTimer
          (writeReg envOk (init envOk (fresh OplType.kOpl2 dtNokturnFM2 0 noCallbacks 0)).2.m
            0x20 0x01).m).events
        = [Event.oplFlush 3, Event.RealChip_onTimer]
      ∧ (OPL_delete
          (writeReg envOk
            (init envOk (fresh OplType.kOpl3 dtRWOpl3Express 0 noCallbacks 0)).2.m
            0x20 0x01).m).events
        = [Event.oplFlush 3, Event.fmDeinit, Event.fmDestroyInterface,
           Event.destroy_mspace 0x10000, Event.Mfree 0x10000] := by
  refine ⟨?_, ?_, ?_, ?_, ?_⟩ <;> decide

end FMlibOPL
